import Mathlib

/-!
Shallow embedding of the stun-client library (src/message.rs, src/client.rs,
src/nat_behavior_discovery.rs) and verification of its specification claims.

Bytes are modelled as Nat (values are kept below 256 by the operations that
produce them); u16 and u32 arithmetic is modelled with explicit mod 2^16 and
mod 2^32 where Rust truncates.  Rust panics (out-of-bounds indexing and
slicing) are modelled with the monad Except Unit: the value .error () stands
for a panic.
-/

namespace StunClient

/-- Decidable equality for Except, so that concrete runs of the embedded
functions can be settled by decide. -/
instance {ε α : Type} [DecidableEq ε] [DecidableEq α] : DecidableEq (Except ε α) := fun
  | .error e, .error f =>
    if h : e = f then .isTrue (congrArg Except.error h)
    else .isFalse fun hh => h (Except.error.inj hh)
  | .error _, .ok _ => .isFalse fun hh => Except.noConfusion hh
  | .ok _, .error _ => .isFalse fun hh => Except.noConfusion hh
  | .ok a, .ok b =>
    if h : a = b then .isTrue (congrArg Except.ok h)
    else .isFalse fun hh => h (Except.ok.inj hh)

/-- Magic cookie constant from message.rs. -/
def MAGIC_COOKIE : Nat := 0x2112A442

/-- Binding method code. -/
def METHOD_BINDING : Nat := 0x0001

/-- Class request code. -/
def CLASS_REQUEST : Nat := 0x0000
/-- Class indication code. -/
def CLASS_INDICATION : Nat := 0x0010
/-- Class success response code. -/
def CLASS_SUCCESS_RESPONSE : Nat := 0x0100
/-- Class error response code. -/
def CLASS_ERROR_RESPONSE : Nat := 0x0110

/-- STUN header size in bytes. -/
def HEADER_BYTE_SIZE : Nat := 20

/-- MAPPED-ADDRESS attribute code. -/
def ATTR_MAPPED_ADDRESS : Nat := 0x0001
/-- XOR-MAPPED-ADDRESS attribute code. -/
def ATTR_XOR_MAPPED_ADDRESS : Nat := 0x0020
/-- ERROR-CODE attribute code. -/
def ATTR_ERROR_CODE : Nat := 0x0009
/-- SOFTWARE attribute code. -/
def ATTR_SOFTWARE : Nat := 0x8022
/-- OTHER-ADDRESS attribute code. -/
def ATTR_OTHER_ADDRESS : Nat := 0x802c
/-- CHANGE-REQUEST attribute code. -/
def ATTR_CHANGE_REQUEST : Nat := 0x0003
/-- RESPONSE-ORIGIN attribute code. -/
def ATTR_RESPONSE_ORIGIN : Nat := 0x802b

/-- The change-IP flag of the CHANGE-REQUEST attribute. -/
def CHANGE_REQUEST_IP_FLAG : Nat := 0x00000004
/-- The change-port flag of the CHANGE-REQUEST attribute. -/
def CHANGE_REQUEST_PORT_FLAG : Nat := 0x00000002

/-- IPv4 address family byte. -/
def FAMILY_IPV4 : Nat := 0x01
/-- IPv6 address family byte. -/
def FAMILY_IPV6 : Nat := 0x02

/-- Rust u16::from_be_bytes on two bytes. -/
def u16be (b0 b1 : Nat) : Nat := b0 * 256 + b1

/-- Rust u16::to_be_bytes, after truncation of the value to 16 bits. -/
def u16bytes (n : Nat) : List Nat := [n / 256 % 256, n % 256]

/-- Rust u32::to_be_bytes, after truncation of the value to 32 bits. -/
def u32bytes (n : Nat) : List Nat :=
  [n / 2 ^ 24 % 256, n / 2 ^ 16 % 256, n / 2 ^ 8 % 256, n % 256]

/-- Rust indexing v[i] on a byte vector: panics when out of bounds. -/
def listIdx (l : List Nat) (i : Nat) : Except Unit Nat :=
  if h : i < l.length then .ok l[i] else .error ()

/-- Rust slicing v[i..] on a byte vector: panics when i exceeds the length. -/
def listSlice (l : List Nat) (i : Nat) : Except Unit (List Nat) :=
  if i ≤ l.length then .ok (l.drop i) else .error ()

/-- The error enum of error.rs.  The inner io::Error of IOError and the
reason strings are modelled as plain strings. -/
inductive STUNClientError where
  | parseError : STUNClientError
  | ioError : String → STUNClientError
  | notSupportedError : String → STUNClientError
  | timeoutError : STUNClientError
  | unknown : String → STUNClientError
deriving DecidableEq, Repr

/-- Enum Method of message.rs. -/
inductive Method where
  | binding : Method
  | unknown : Nat → Method
deriving DecidableEq, Repr

/-- Method::from_u16. -/
def Method.from_u16 (method : Nat) : Method :=
  if method = METHOD_BINDING then .binding else .unknown method

/-- Method::to_u16. -/
def Method.to_u16 : Method → Nat
  | .binding => METHOD_BINDING
  | .unknown method => method

/-- Enum Class of message.rs. -/
inductive Class where
  | request : Class
  | indication : Class
  | successResponse : Class
  | errorResponse : Class
  | unknown : Nat → Class
deriving DecidableEq, Repr

/-- Class::from_u16. -/
def Class.from_u16 (c : Nat) : Class :=
  if c = CLASS_REQUEST then .request
  else if c = CLASS_INDICATION then .indication
  else if c = CLASS_SUCCESS_RESPONSE then .successResponse
  else if c = CLASS_ERROR_RESPONSE then .errorResponse
  else .unknown c

/-- Class::to_u16. -/
def Class.to_u16 : Class → Nat
  | .request => CLASS_REQUEST
  | .indication => CLASS_INDICATION
  | .successResponse => CLASS_SUCCESS_RESPONSE
  | .errorResponse => CLASS_ERROR_RESPONSE
  | .unknown c => c

/-- Enum Attribute of message.rs. -/
inductive Attribute where
  | mappedAddress : Attribute
  | xorMappedAddress : Attribute
  | software : Attribute
  | otherAddress : Attribute
  | changeRequest : Attribute
  | responseOrigin : Attribute
  | errorCode : Attribute
  | unknown : Nat → Attribute
deriving DecidableEq, Repr

/-- Attribute::from_u16. -/
def Attribute.from_u16 (a : Nat) : Attribute :=
  if a = ATTR_MAPPED_ADDRESS then .mappedAddress
  else if a = ATTR_XOR_MAPPED_ADDRESS then .xorMappedAddress
  else if a = ATTR_SOFTWARE then .software
  else if a = ATTR_OTHER_ADDRESS then .otherAddress
  else if a = ATTR_CHANGE_REQUEST then .changeRequest
  else if a = ATTR_RESPONSE_ORIGIN then .responseOrigin
  else if a = ATTR_ERROR_CODE then .errorCode
  else .unknown a

/-- Attribute::to_u16. -/
def Attribute.to_u16 : Attribute → Nat
  | .mappedAddress => ATTR_MAPPED_ADDRESS
  | .xorMappedAddress => ATTR_XOR_MAPPED_ADDRESS
  | .software => ATTR_SOFTWARE
  | .otherAddress => ATTR_OTHER_ADDRESS
  | .changeRequest => ATTR_CHANGE_REQUEST
  | .responseOrigin => ATTR_RESPONSE_ORIGIN
  | .errorCode => ATTR_ERROR_CODE
  | .unknown a => a

/-- std::net::IpAddr, with the address bytes spelled out. -/
inductive IpAddr where
  | v4 : Nat → Nat → Nat → Nat → IpAddr
  | v6 : List Nat → IpAddr
deriving DecidableEq, Repr

/-- std::net::SocketAddr. -/
structure SocketAddr where
  ip : IpAddr
  port : Nat
deriving DecidableEq, Repr

/-- bytes_to_ip_addr of message.rs.  Indexing into b panics when b is
shorter than the family requires. -/
def bytes_to_ip_addr (family : Nat) (b : List Nat) : Except Unit (Option IpAddr) :=
  if family = FAMILY_IPV4 then
    match listIdx b 0, listIdx b 1, listIdx b 2, listIdx b 3 with
    | .ok b0, .ok b1, .ok b2, .ok b3 => .ok (some (.v4 b0 b1 b2 b3))
    | _, _, _, _ => .error ()
  else if family = FAMILY_IPV6 then
    if 16 ≤ b.length then .ok (some (.v6 (b.take 16))) else .error ()
  else .ok none

/-- Struct Header of message.rs. -/
structure Header where
  method : Method
  cls : Class
  length : Nat
  transaction_id : List Nat
deriving DecidableEq, Repr

/-- Header::message_type: class bits or-ed with method bits. -/
def Header.message_type (h : Header) : Nat :=
  h.cls.to_u16 ||| h.method.to_u16

/-- Header::decode_method: method bits are taken at mask 0x3EEF. -/
def Header.decode_method (message_type : Nat) : Method :=
  Method.from_u16 (message_type &&& 0x3EEF)

/-- Header::decode_class: class bits are taken at mask 0x0110. -/
def Header.decode_class (message_type : Nat) : Class :=
  Class.from_u16 (message_type &&& 0x0110)

/-- Header::to_raw: message type, length, magic cookie, transaction id. -/
def Header.to_raw (h : Header) : List Nat :=
  u16bytes h.message_type ++ u16bytes h.length ++ u32bytes MAGIC_COOKIE ++
    h.transaction_id

/-- Header::from_raw.  The first four bytes are removed one by one in the
source; the transaction id is the tail of the remaining buffer after the
four magic-cookie bytes, i.e. everything from offset 8 on. -/
def Header.from_raw (buf : List Nat) : Except STUNClientError Header :=
  if buf.length < HEADER_BYTE_SIZE then .error .parseError
  else
    let message_type := u16be (buf.getD 0 0) (buf.getD 1 0)
    .ok { cls := Header.decode_class message_type
          method := Header.decode_method message_type
          length := u16be (buf.getD 2 0) (buf.getD 3 0)
          transaction_id := buf.drop 8 }

/-- Struct Message of message.rs.  The HashMap of attributes is modelled as
an association list (keys are pairwise distinct in every map the code
builds); the Option mirrors the Option of the source field. -/
structure Message where
  header : Header
  attributes : Option (List (Attribute × List Nat))
deriving DecidableEq, Repr

/-- HashMap::get on the association list. -/
def lookupA (l : List (Attribute × List Nat)) (a : Attribute) : Option (List Nat) :=
  match l with
  | [] => none
  | (k, v) :: t => if k = a then some v else lookupA t a

/-- HashMap::insert on the association list: replace the binding when the
key is present, append it otherwise. -/
def insertA (l : List (Attribute × List Nat)) (k : Attribute) (v : List Nat) :
    List (Attribute × List Nat) :=
  match l with
  | [] => [(k, v)]
  | (k2, v2) :: t => if k2 = k then (k, v) :: t else (k2, v2) :: insertA t k v

/-- Message::get_raw_attr_value. -/
def Message.get_raw_attr_value (m : Message) (attr : Attribute) : Option (List Nat) :=
  match m.attributes with
  | none => none
  | some l => lookupA l attr

/-- Message::get_transaction_id. -/
def Message.get_transaction_id (m : Message) : List Nat :=
  m.header.transaction_id

/-- Message::get_method. -/
def Message.get_method (m : Message) : Method := m.header.method

/-- Message::get_class. -/
def Message.get_class (m : Message) : Class := m.header.cls

/-- The loop of Message::decode_attrs: read a type and a length
(four bytes), require the declared number of value bytes, store the
attribute, continue on the rest.  No padding is skipped.  Every iteration
consumes at least four bytes, so the length of the buffer bounds the
number of iterations and serves as structural fuel; the fuel-exhausted
case is unreachable whenever the fuel is at least the buffer length. -/
def decodeAttrsLoop : Nat → List (Attribute × List Nat) → List Nat →
    Except STUNClientError (List (Attribute × List Nat))
  | _, acc, [] => .ok acc
  | 0, _, _ :: _ => .error .parseError
  | fuel + 1, acc, b0 :: b1 :: b2 :: b3 :: rest =>
    let attribute_type := Attribute.from_u16 (u16be b0 b1)
    let length := u16be b2 b3
    if rest.length < length then .error .parseError
    else decodeAttrsLoop fuel (insertA acc attribute_type (rest.take length)) (rest.drop length)
  | _ + 1, _, _ => .error .parseError

/-- Message::decode_attrs: an empty attribute buffer is a parse error,
otherwise the loop runs until the buffer is exhausted. -/
def Message.decode_attrs (attrs_buf : List Nat) :
    Except STUNClientError (List (Attribute × List Nat)) :=
  if attrs_buf.isEmpty then .error .parseError
  else decodeAttrsLoop attrs_buf.length [] attrs_buf

/-- Message::from_raw. -/
def Message.from_raw (buf : List Nat) : Except STUNClientError Message :=
  if buf.length < HEADER_BYTE_SIZE then .error .parseError
  else
    match Header.from_raw (buf.take HEADER_BYTE_SIZE) with
    | .error e => .error e
    | .ok header =>
      if buf.length > HEADER_BYTE_SIZE then
        match Message.decode_attrs (buf.drop HEADER_BYTE_SIZE) with
        | .error e => .error e
        | .ok attrs => .ok { header := header, attributes := some attrs }
      else .ok { header := header, attributes := none }

/-- The serialization of one attribute in Message::to_raw: type, value
length, value bytes.  No padding is emitted. -/
def encodeAttr (p : Attribute × List Nat) : List Nat :=
  u16bytes p.1.to_u16 ++ u16bytes p.2.length ++ p.2

/-- Message::to_raw: the raw header followed by each attribute in map
order. -/
def Message.to_raw (m : Message) : List Nat :=
  m.header.to_raw ++
    (match m.attributes with
     | none => []
     | some l => l.flatMap encodeAttr)

/-- An enum that defines the type of STUN error code.  The utf-8 decoding
of the reason phrase is abstracted: the reason is kept as raw bytes. -/
inductive ErrorCode where
  | tryAlternate : List Nat → ErrorCode
  | badRequest : List Nat → ErrorCode
  | unauthorized : List Nat → ErrorCode
  | unknownAttribute : List Nat → ErrorCode
  | staleNonce : List Nat → ErrorCode
  | serverError : List Nat → ErrorCode
  | unknown : List Nat → ErrorCode
deriving DecidableEq, Repr

/-- ErrorCode::from. -/
def ErrorCode.from (code : Nat) (reason : List Nat) : ErrorCode :=
  if code = 300 then .tryAlternate reason
  else if code = 400 then .badRequest reason
  else if code = 401 then .unauthorized reason
  else if code = 420 then .unknownAttribute reason
  else if code = 438 then .staleNonce reason
  else if code = 500 then .serverError reason
  else .unknown reason

/-- Attribute::get_xor_mapped_address.  The family byte and the two port
bytes are read by plain indexing (panics on short values); the port is
the xport xored with the high 16 bits of the magic cookie; for IPv4 the
address is xored byte-wise with the magic cookie, for IPv6 with the magic
cookie followed by the transaction id. -/
def Attribute.get_xor_mapped_address (message : Message) : Except Unit (Option SocketAddr) :=
  match Message.get_raw_attr_value message .xorMappedAddress with
  | none => .ok none
  | some attr_value =>
    match listIdx attr_value 1, listIdx attr_value 2, listIdx attr_value 3 with
    | .ok family, .ok p0, .ok p1 =>
      let mc_bytes := u32bytes MAGIC_COOKIE
      let port := (u16be p0 p1) ^^^ (u16be (mc_bytes.getD 0 0) (mc_bytes.getD 1 0))
      if family = FAMILY_IPV4 then
        match listSlice attr_value 4 with
        | .ok encoded_ip =>
          let b := (encoded_ip.zip (u32bytes MAGIC_COOKIE)).map fun p => p.1 ^^^ p.2
          match bytes_to_ip_addr family b with
          | .ok ipOpt => .ok (ipOpt.map fun ip_addr => ⟨ip_addr, port⟩)
          | .error u => .error u
        | .error u => .error u
      else if family = FAMILY_IPV6 then
        match listSlice attr_value 4 with
        | .ok encoded_ip =>
          let mc_ti := u32bytes MAGIC_COOKIE ++ message.header.transaction_id
          let b := (encoded_ip.zip mc_ti).map fun p => p.1 ^^^ p.2
          match bytes_to_ip_addr family b with
          | .ok ipOpt => .ok (ipOpt.map fun ip_addr => ⟨ip_addr, port⟩)
          | .error u => .error u
        | .error u => .error u
      else .ok none
    | _, _, _ => .error ()

/-- Attribute::decode_simple_address_attribute: family byte, plain port,
plain address bytes. -/
def Attribute.decode_simple_address_attribute (message : Message) (attr : Attribute) :
    Except Unit (Option SocketAddr) :=
  match Message.get_raw_attr_value message attr with
  | none => .ok none
  | some attr_value =>
    match listIdx attr_value 1, listIdx attr_value 2, listIdx attr_value 3 with
    | .ok family, .ok p0, .ok p1 =>
      let port := u16be p0 p1
      match listSlice attr_value 4 with
      | .ok tail =>
        match bytes_to_ip_addr family tail with
        | .ok ipOpt => .ok (ipOpt.map fun ip_addr => ⟨ip_addr, port⟩)
        | .error u => .error u
      | .error u => .error u
    | _, _, _ => .error ()

/-- Attribute::get_mapped_address. -/
def Attribute.get_mapped_address (message : Message) : Except Unit (Option SocketAddr) :=
  Attribute.decode_simple_address_attribute message .mappedAddress

/-- Attribute::get_other_address. -/
def Attribute.get_other_address (message : Message) : Except Unit (Option SocketAddr) :=
  Attribute.decode_simple_address_attribute message .otherAddress

/-- Attribute::get_response_origin. -/
def Attribute.get_response_origin (message : Message) : Except Unit (Option SocketAddr) :=
  Attribute.decode_simple_address_attribute message .responseOrigin

/-- Attribute::get_error_code: bytes 2 and 3 are read by plain indexing
(panics on short values), the reason is the slice from byte 4 on. -/
def Attribute.get_error_code (message : Message) : Except Unit (Option ErrorCode) :=
  match Message.get_raw_attr_value message .errorCode with
  | none => .ok none
  | some attr_value =>
    match listIdx attr_value 2, listIdx attr_value 3 with
    | .ok c, .ok n =>
      let code := c * 100 + n
      match listSlice attr_value 4 with
      | .ok reason => .ok (some (ErrorCode.from code reason))
      | .error u => .error u
    | _, _ => .error ()

/-- Attribute::generate_change_request_value. -/
def Attribute.generate_change_request_value (change_ip change_port : Bool) : List Nat :=
  let value : Nat := 0
  let value := if change_ip then value ||| CHANGE_REQUEST_IP_FLAG else value
  let value := if change_port then value ||| CHANGE_REQUEST_PORT_FLAG else value
  u32bytes value

/-- Message::new: the length field sums 2 + 2 + value length over the
attributes (u16 arithmetic, hence mod 2^16); the transaction id, random in
the source, is a parameter of the embedding. -/
def Message.new (method : Method) (cls : Class)
    (attributes : Option (List (Attribute × List Nat))) (transaction_id : List Nat) :
    Message :=
  let length : Nat :=
    match attributes with
    | none => 0
    | some l => (l.map fun e => 2 + 2 + e.2.length % 65536).sum % 65536
  { header := { method := method, cls := cls, length := length,
                transaction_id := transaction_id },
    attributes := attributes }

/-! ## Client (src/client.rs)

Client::binding_request is embedded as a function of the oracle outcomes
of its two suspension points: the send (which either succeeds or fails
with an io error) and the awaited receive channel (which either times out,
reports a terminated stream, or delivers a result).  The transaction table
keeps only the transaction ids (the sinks carry no information relevant to
the claims), and the function additionally returns the ordered trace of
the table operations and the socket send it performs. -/

/-- Outcome of the awaited receive side of one binding_request call. -/
inductive RecvOutcome where
  | timeout : RecvOutcome
  | streamClosed : RecvOutcome
  | delivered : Except STUNClientError Message → RecvOutcome
deriving DecidableEq, Repr

/-- The observable actions of binding_request, in program order. -/
inductive ClientAction where
  | insertTx : List Nat → ClientAction
  | sendTo : List Nat → ClientAction
  | removeTx : List Nat → ClientAction
deriving DecidableEq, Repr

/-- HashMap::insert on the transaction table, keyed by transaction id. -/
def insertTid (table : List (List Nat)) (tid : List Nat) : List (List Nat) :=
  if tid ∈ table then table else table ++ [tid]

/-- HashMap::remove on the transaction table. -/
def removeTid (table : List (List Nat)) (tid : List Nat) : List (List Nat) :=
  table.erase tid

/-- Client::binding_request.  Builds the Binding/Request message, inserts
the sink into the table, serializes, sends, then awaits; the early
returns of the source (send failure, timeout, closed stream) are taken
before the removal of the table entry, which only happens on the
delivered path.  Returns the call result, the final table and the action
trace. -/
def Client.binding_request (table : List (List Nat)) (transaction_id : List Nat)
    (attrs : Option (List (Attribute × List Nat)))
    (sendResult : Except String Unit) (recv : RecvOutcome) :
    Except STUNClientError Message × List (List Nat) × List ClientAction :=
  let msg := Message.new .binding .request attrs transaction_id
  let table1 := insertTid table (Message.get_transaction_id msg)
  let raw_msg := Message.to_raw msg
  let trace1 := [ClientAction.insertTx (Message.get_transaction_id msg),
                 ClientAction.sendTo raw_msg]
  match sendResult with
  | .error e => (.error (.ioError e), table1, trace1)
  | .ok _ =>
    match recv with
    | .timeout => (.error .timeoutError, table1, trace1)
    | .streamClosed =>
      (.error (.unknown "Receive stream terminated unintentionally"), table1, trace1)
    | .delivered res =>
      (res, removeTid table1 (Message.get_transaction_id msg),
       trace1 ++ [ClientAction.removeTx (Message.get_transaction_id msg)])

/-! ## NAT behavior discovery (src/nat_behavior_discovery.rs)

The two procedures are embedded as functions of an oracle mapping the
index of each binding_request call to its outcome; the destinations and
attribute sets of the issued requests are returned as a trace.  The local
interface addresses (pnet::datalink::interfaces in the source) are passed
as a parameter.  Rust panics inside the attribute accessors propagate,
hence the Except Unit layer. -/

/-- NATMappingType of nat_behavior_discovery.rs. -/
inductive NATMappingType where
  | noNAT : NATMappingType
  | endpointIndependent : NATMappingType
  | addressDependent : NATMappingType
  | addressAndPortDependent : NATMappingType
  | unknown : NATMappingType
deriving DecidableEq, Repr

/-- NATFilteringType of nat_behavior_discovery.rs. -/
inductive NATFilteringType where
  | endpointIndependent : NATFilteringType
  | addressDependent : NATFilteringType
  | addressAndPortDependent : NATFilteringType
  | unknown : NATFilteringType
deriving DecidableEq, Repr

/-- NATMappingTypeResult. -/
structure NATMappingTypeResult where
  test1_xor_mapped_addr : Option SocketAddr
  test2_xor_mapped_addr : Option SocketAddr
  test3_xor_mapped_addr : Option SocketAddr
  mapping_type : NATMappingType
deriving DecidableEq, Repr

/-- NATFilteringTypeResult. -/
structure NATFilteringTypeResult where
  xor_mapped_addr : Option SocketAddr
  filtering_type : NATFilteringType
deriving DecidableEq, Repr

/-- One request issued by a discovery procedure: destination and
attribute set. -/
structure SentRequest where
  dest : SocketAddr
  attrs : Option (List (Attribute × List Nat))
deriving DecidableEq, Repr

/-- Tests 2 and 3 of check_nat_mapping_behavior, after Test 1 produced
the OTHER-ADDRESS endpoint and a mapped address that did not match a
local interface address.  reqs1 is the request trace so far. -/
def mappingTests23 (stun_addr other_addr : SocketAddr) (xma1 : SocketAddr)
    (oracle : Nat → Except STUNClientError Message) (reqs1 : List SentRequest) :
    Except Unit (Except STUNClientError NATMappingTypeResult × List SentRequest) :=
  let req2 : SentRequest := ⟨other_addr, none⟩
  let reqs2 := reqs1 ++ [req2]
  match oracle 1 with
  | .error e => .ok (.error e, reqs2)
  | .ok t2_res =>
    match Attribute.get_xor_mapped_address t2_res with
    | .error u => .error u
    | .ok none => .ok (.error (.notSupportedError "XOR-MAPPED-ADDRESS"), reqs2)
    | .ok (some xma2) =>
      if (some xma1 : Option SocketAddr) = some xma2 then
        .ok (.ok { test1_xor_mapped_addr := some xma1,
                   test2_xor_mapped_addr := some xma2,
                   test3_xor_mapped_addr := none,
                   mapping_type := .endpointIndependent }, reqs2)
      else
        let t3_addr : SocketAddr := ⟨stun_addr.ip, other_addr.port⟩
        let req3 : SentRequest := ⟨t3_addr, none⟩
        let reqs3 := reqs2 ++ [req3]
        match oracle 2 with
        | .error e => .ok (.error e, reqs3)
        | .ok t3_res =>
          match Attribute.get_xor_mapped_address t3_res with
          | .error u => .error u
          | .ok none => .ok (.error (.notSupportedError "XOR-MAPPED-ADDRESS"), reqs3)
          | .ok (some xma3) =>
            if (some xma2 : Option SocketAddr) = some xma3 then
              .ok (.ok { test1_xor_mapped_addr := some xma1,
                         test2_xor_mapped_addr := some xma2,
                         test3_xor_mapped_addr := some xma3,
                         mapping_type := .addressDependent }, reqs3)
            else
              .ok (.ok { test1_xor_mapped_addr := some xma1,
                         test2_xor_mapped_addr := some xma2,
                         test3_xor_mapped_addr := some xma3,
                         mapping_type := .addressAndPortDependent }, reqs3)

/-- check_nat_mapping_behavior.  local_ips holds the addresses of the
local interfaces (the ip projection of the IpNetwork list the source
enumerates). -/
def check_nat_mapping_behavior (local_ips : List IpAddr) (stun_addr : SocketAddr)
    (oracle : Nat → Except STUNClientError Message) :
    Except Unit (Except STUNClientError NATMappingTypeResult × List SentRequest) :=
  let req1 : SentRequest := ⟨stun_addr, none⟩
  match oracle 0 with
  | .error e => .ok (.error e, [req1])
  | .ok t1_res =>
    match Attribute.get_other_address t1_res with
    | .error u => .error u
    | .ok none => .ok (.error (.notSupportedError "OTHER-ADDRESS"), [req1])
    | .ok (some other_addr) =>
      match Attribute.get_xor_mapped_address t1_res with
      | .error u => .error u
      | .ok none => .ok (.error (.notSupportedError "XOR-MAPPED-ADDRESS"), [req1])
      | .ok (some xma1) =>
        match xma1.ip with
        | .v4 a b c d =>
          if local_ips.any fun lip => lip = IpAddr.v4 a b c d then
            .ok (.ok { test1_xor_mapped_addr := some xma1,
                       test2_xor_mapped_addr := none,
                       test3_xor_mapped_addr := none,
                       mapping_type := .noNAT }, [req1])
          else mappingTests23 stun_addr other_addr xma1 oracle [req1]
        | .v6 bs =>
          if local_ips.any fun lip => lip = IpAddr.v6 bs then
            .ok (.ok { test1_xor_mapped_addr := some xma1,
                       test2_xor_mapped_addr := none,
                       test3_xor_mapped_addr := none,
                       mapping_type := .noNAT }, [req1])
          else .ok (.error .parseError, [req1])

/-- check_nat_filtering_behavior. -/
def check_nat_filtering_behavior (stun_addr : SocketAddr)
    (oracle : Nat → Except STUNClientError Message) :
    Except Unit (Except STUNClientError NATFilteringTypeResult × List SentRequest) :=
  let req1 : SentRequest := ⟨stun_addr, none⟩
  match oracle 0 with
  | .error e => .ok (.error e, [req1])
  | .ok t1_res =>
    match Attribute.get_xor_mapped_address t1_res with
    | .error u => .error u
    | .ok none => .ok (.error (.notSupportedError "XOR-MAPPED-ADDRESS"), [req1])
    | .ok (some xma) =>
      let attrs2 := [(Attribute.changeRequest, Attribute.generate_change_request_value true true)]
      let req2 : SentRequest := ⟨stun_addr, some attrs2⟩
      match oracle 1 with
      | .ok _ =>
        .ok (.ok { xor_mapped_addr := some xma,
                   filtering_type := .endpointIndependent }, [req1, req2])
      | .error .timeoutError =>
        let attrs3 := [(Attribute.changeRequest, Attribute.generate_change_request_value false true)]
        let req3 : SentRequest := ⟨stun_addr, some attrs3⟩
        match oracle 2 with
        | .ok _ =>
          .ok (.ok { xor_mapped_addr := some xma,
                     filtering_type := .addressDependent }, [req1, req2, req3])
        | .error .timeoutError =>
          .ok (.ok { xor_mapped_addr := some xma,
                     filtering_type := .addressAndPortDependent }, [req1, req2, req3])
        | .error e2 => .ok (.error e2, [req1, req2, req3])
      | .error e => .ok (.error e, [req1, req2])

/-! ## Helper lemmas -/

/-- Reading back big-endian u16 bytes gives the value for u16 range. -/
lemma u16be_split (n : Nat) (h : n < 65536) : u16be (n / 256 % 256) (n % 256) = n := by
  unfold u16be
  omega

/-- A bit of k is clear wherever a mask disjoint from k is set. -/
lemma land_lor_left (c k m : Nat) (hkm : k &&& m = 0) : (c ||| k) &&& m = c &&& m := by
  apply Nat.eq_of_testBit_eq
  intro i
  have hb : k.testBit i = true → m.testBit i = false := by
    have h2 := congrArg (fun x => Nat.testBit x i) hkm
    simpa [Nat.testBit_land] using h2
  simp only [Nat.testBit_land, Nat.testBit_lor]
  cases hc : Nat.testBit c i <;> cases hk : Nat.testBit k i <;>
    cases hm : Nat.testBit m i <;> simp_all

/-- Or-ing in a value disjoint from the mask does not change the masked bits. -/
lemma land_lor_right (c k m : Nat) (hcm : c &&& m = 0) : (c ||| k) &&& m = k &&& m := by
  rw [Nat.lor_comm]
  exact land_lor_left k c m hcm

/-- A method whose bits lie inside 0x3EEF has no bits inside 0x0110. -/
lemma land_0110_eq_zero (k : Nat) (hk : k &&& 0x3EEF = k) : k &&& 0x0110 = 0 := by
  calc k &&& 0x0110 = (k &&& 0x3EEF) &&& 0x0110 := by rw [hk]
    _ = k &&& (0x3EEF &&& 0x0110) := Nat.land_assoc k 0x3EEF 0x0110
    _ = k &&& 0 := by rw [(by decide : (0x3EEF &&& 0x0110 : Nat) = 0)]
    _ = 0 := Nat.and_zero k

/-- A value whose bits lie inside 0x3EEF is bounded by 2^16. -/
lemma lt_65536_of_land_3EEF (k : Nat) (hk : k &&& 0x3EEF = k) : k < 65536 := by
  have h := Nat.and_le_right (n := k) (m := 0x3EEF)
  rw [hk] at h
  omega

/-- The four known classes decode correctly from a message type whose
method part has its bits inside the mask 0x3EEF. -/
lemma decode_class_of_known (c : Class) (m : Method)
    (hc : c = .request ∨ c = .indication ∨ c = .successResponse ∨ c = .errorResponse)
    (hm : m.to_u16 &&& 0x3EEF = m.to_u16) :
    Header.decode_class (c.to_u16 ||| m.to_u16) = c := by
  have hz : m.to_u16 &&& 0x0110 = 0 := land_0110_eq_zero _ hm
  unfold Header.decode_class
  rw [land_lor_left _ _ _ hz]
  rcases hc with h | h | h | h <;> subst h <;> decide

/-- The method decodes correctly from a message type built with one of the
four known classes, provided the method is a fixed point of from_u16 after
to_u16 and its bits lie inside the mask 0x3EEF. -/
lemma decode_method_of_known (c : Class) (m : Method)
    (hc : c = .request ∨ c = .indication ∨ c = .successResponse ∨ c = .errorResponse)
    (hm : m.to_u16 &&& 0x3EEF = m.to_u16)
    (hfix : Method.from_u16 m.to_u16 = m) :
    Header.decode_method (c.to_u16 ||| m.to_u16) = m := by
  have hz : c.to_u16 &&& 0x3EEF = 0 := by
    rcases hc with h | h | h | h <;> subst h <;> decide
  unfold Header.decode_method
  rw [land_lor_right _ _ _ hz, hm, hfix]

/-! ## C4: header message-type bit packing -/

/-- C4 counterexample: the claim quantifies the method over Unknown(k) for
arbitrary 16-bit k, but for k = 0x0110 the method bits overlap the class
bit mask, so decode_class on the encoded type of (Request, Unknown(0x0110))
returns ErrorResponse instead of Request. -/
theorem decode_class_fails_on_overlapping_unknown :
    Header.decode_class (Class.request.to_u16 ||| (Method.unknown 0x0110).to_u16) =
      Class.errorResponse ∧
    Header.decode_class (Class.request.to_u16 ||| (Method.unknown 0x0110).to_u16) ≠
      Class.request := by
  decide

/-- C4 amended: for every class in the four known classes and every method
that is Binding or Unknown(k) with k inside the method-bit mask 0x3EEF and
k distinct from the Binding code, decoding the encoded message type
recovers both the class and the method. -/
theorem message_type_roundtrip (c : Class) (m : Method)
    (hc : c = .request ∨ c = .indication ∨ c = .successResponse ∨ c = .errorResponse)
    (hm : m = .binding ∨ ∃ k, m = .unknown k ∧ k &&& 0x3EEF = k ∧ k ≠ 0x0001) :
    Header.decode_class (c.to_u16 ||| m.to_u16) = c ∧
    Header.decode_method (c.to_u16 ||| m.to_u16) = m := by
  have hmask : m.to_u16 &&& 0x3EEF = m.to_u16 := by
    rcases hm with h | ⟨k, hk, hmask, hne⟩
    · subst h; decide
    · subst hk; simpa [Method.to_u16] using hmask
  have hfix : Method.from_u16 m.to_u16 = m := by
    rcases hm with h | ⟨k, hk, hmask2, hne⟩
    · subst h; decide
    · subst hk
      simp [Method.from_u16, Method.to_u16, METHOD_BINDING, hne]
  exact ⟨decode_class_of_known c m hc hmask, decode_method_of_known c m hc hmask hfix⟩

/-- Header::to_raw spelled out as a cons list. -/
lemma header_to_raw_eq (h : Header) :
    h.to_raw = h.message_type / 256 % 256 :: h.message_type % 256 ::
      h.length / 256 % 256 :: h.length % 256 ::
      0x21 :: 0x12 :: 0xA4 :: 0x42 :: h.transaction_id := by
  simp [Header.to_raw, u16bytes, u32bytes, MAGIC_COOKIE]

/-- Parsing the serialization of a header recovers it, provided the
transaction id has 12 bytes, the length is in u16 range, and the class
and method survive the message-type bit packing. -/
lemma Header.from_raw_to_raw (h : Header)
    (htid : h.transaction_id.length = 12)
    (hlen : h.length < 65536)
    (hmt : h.message_type < 65536)
    (hcls : Header.decode_class h.message_type = h.cls)
    (hmet : Header.decode_method h.message_type = h.method) :
    Header.from_raw h.to_raw = .ok h := by
  rw [header_to_raw_eq]
  unfold Header.from_raw
  have hL : (h.message_type / 256 % 256 :: h.message_type % 256 ::
      h.length / 256 % 256 :: h.length % 256 ::
      0x21 :: 0x12 :: 0xA4 :: 0x42 :: h.transaction_id).length = 20 := by
    simp [htid]
  rw [hL]
  norm_num [HEADER_BYTE_SIZE, List.getD, u16be_split h.message_type hmt,
    u16be_split h.length hlen, List.drop, hcls, hmet]

/-- HashMap::insert appends when the key is absent. -/
lemma insertA_not_mem (acc : List (Attribute × List Nat)) (k : Attribute) (v : List Nat)
    (hk : ∀ q ∈ acc, k ≠ q.1) : insertA acc k v = acc ++ [(k, v)] := by
  induction acc with
  | nil => rfl
  | cons hd tl ih =>
    have hne : hd.1 ≠ k := fun he => hk hd (by simp) he.symm
    simp only [insertA, hne, if_false]
    rw [ih fun q hq => hk q (by simp [hq])]
    simp

/-- The encoding of one attribute spelled out as a cons list. -/
lemma encodeAttr_eq (p : Attribute × List Nat) :
    encodeAttr p = p.1.to_u16 / 256 % 256 :: p.1.to_u16 % 256 ::
      p.2.length / 256 % 256 :: p.2.length % 256 :: p.2 := by
  simp [encodeAttr, u16bytes]

/-- Decoding the concatenated encodings of an attribute list with pairwise
distinct keys extends the accumulator by exactly that list, for any fuel
at least the byte length. -/
lemma decodeAttrsLoop_encode (l : List (Attribute × List Nat)) :
    ∀ (acc : List (Attribute × List Nat)) (fuel : Nat),
      (l.flatMap encodeAttr).length ≤ fuel →
      (∀ p ∈ l, p.1.to_u16 < 65536 ∧ Attribute.from_u16 p.1.to_u16 = p.1 ∧
        p.2.length < 65536) →
      (∀ p ∈ l, ∀ q ∈ acc, p.1 ≠ q.1) →
      (l.map Prod.fst).Nodup →
      decodeAttrsLoop fuel acc (l.flatMap encodeAttr) = .ok (acc ++ l) := by
  induction l with
  | nil =>
    intro acc fuel _ _ _ _
    simp [decodeAttrsLoop]
  | cons p t ih =>
    intro acc fuel hfuel hwf hdisj hnodup
    obtain ⟨k, v⟩ := p
    have hknot : k ∉ t.map Prod.fst := by
      simp only [List.map_cons, List.nodup_cons] at hnodup
      exact hnodup.1
    have hnodup2 : (t.map Prod.fst).Nodup := by
      simp only [List.map_cons, List.nodup_cons] at hnodup
      exact hnodup.2
    have hlenflat : ((k, v) :: t).flatMap encodeAttr =
        k.to_u16 / 256 % 256 :: k.to_u16 % 256 ::
          v.length / 256 % 256 :: v.length % 256 :: (v ++ t.flatMap encodeAttr) := by
      simp [List.flatMap_cons, encodeAttr_eq]
    rw [hlenflat]
    rw [hlenflat] at hfuel
    obtain ⟨hk16, hkfix, hv16⟩ := hwf (k, v) (by simp)
    cases fuel with
    | zero => simp at hfuel
    | succ fuel =>
      have hrec := ih (acc ++ [(k, v)]) fuel
        (by simp at hfuel ⊢; omega)
        (fun q hq => hwf q (by simp [hq]))
        (by
          intro q hq r hr
          rcases List.mem_append.mp hr with hr1 | hr2
          · exact hdisj q (by simp [hq]) r hr1
          · have hrk : r = (k, v) := by simpa using hr2
            subst hrk
            intro he
            have hmem : q.1 ∈ t.map Prod.fst := List.mem_map_of_mem Prod.fst hq
            rw [he] at hmem
            exact hknot hmem)
        hnodup2
      have hge : ¬ (v ++ t.flatMap encodeAttr).length < v.length := by
        simp
      have hins : insertA acc k v = acc ++ [(k, v)] :=
        insertA_not_mem acc k v fun q hq => hdisj (k, v) (by simp) q hq
      simp only [decodeAttrsLoop]
      rw [u16be_split k.to_u16 hk16, u16be_split v.length hv16, hkfix]
      rw [if_neg hge]
      rw [List.take_left, List.drop_left, hins, hrec]
      simp

/-! ## C2: codec round trip -/

/-- Message::from_raw on a bare 20-byte header. -/
lemma Message.from_raw_header (h : Header) (hdr : List Nat)
    (hh20 : hdr.length = 20) (hhdr : Header.from_raw hdr = .ok h) :
    Message.from_raw hdr = .ok { header := h, attributes := none } := by
  unfold Message.from_raw
  have hb : HEADER_BYTE_SIZE = 20 := rfl
  have htake : hdr.take 20 = hdr := by rw [← hh20]; exact List.take_length _
  simp only [hb, hh20, htake, hhdr]
  norm_num

/-- Message::from_raw on a 20-byte header followed by a nonempty attribute
section that decodes successfully. -/
lemma Message.from_raw_append (h : Header) (l : List (Attribute × List Nat))
    (hdr rest : List Nat)
    (hh20 : hdr.length = 20)
    (hhdr : Header.from_raw hdr = .ok h)
    (hpos : 0 < rest.length)
    (hdec : Message.decode_attrs rest = .ok l) :
    Message.from_raw (hdr ++ rest) = .ok { header := h, attributes := some l } := by
  unfold Message.from_raw
  have hb : HEADER_BYTE_SIZE = 20 := rfl
  have hL : (hdr ++ rest).length = 20 + rest.length := by simp [hh20]
  have htake : (hdr ++ rest).take 20 = hdr := by rw [← hh20]; exact List.take_left _ _
  have hdrop : (hdr ++ rest).drop 20 = rest := by rw [← hh20]; exact List.drop_left _ _
  simp only [hb, hL, htake, hdrop, hhdr]
  rw [if_neg (by omega)]
  rw [if_pos (by omega)]
  simp only [hdec]

/-- A message carrying an empty attribute map, used to refute the claim
that the round trip holds for every attribute set. -/
def emptyAttrsMessage : Message :=
  { header := { method := .binding, cls := .request, length := 0,
                transaction_id := List.replicate 12 0 },
    attributes := some [] }

/-- C2 counterexample: a message whose attribute map is present but empty
serializes to a bare 20-byte header, which parses back with no attribute
map at all, so from_raw (to_raw M) differs from Ok(M) at this M. -/
theorem roundtrip_fails_on_empty_attribute_map :
    Message.from_raw (Message.to_raw emptyAttrsMessage) ≠ .ok emptyAttrsMessage := by
  decide

/-- C2 amended: decoding the encoding returns the message, for messages
whose class is one of the four known classes, whose method is Binding or
a canonical Unknown inside the method-bit mask, whose length field is in
u16 range, whose transaction id has 12 bytes, and whose attribute map is
either absent or a nonempty map with pairwise distinct canonical keys and
u16-range value lengths. -/
theorem message_from_raw_to_raw (M : Message)
    (hc : M.header.cls = .request ∨ M.header.cls = .indication ∨
      M.header.cls = .successResponse ∨ M.header.cls = .errorResponse)
    (hm : M.header.method = .binding ∨
      ∃ k, M.header.method = .unknown k ∧ k &&& 0x3EEF = k ∧ k ≠ 0x0001)
    (hlen : M.header.length < 65536)
    (htid : M.header.transaction_id.length = 12)
    (hattr : M.attributes = none ∨ ∃ l, M.attributes = some l ∧ l ≠ [] ∧
      (∀ p ∈ l, p.1.to_u16 < 65536 ∧ Attribute.from_u16 p.1.to_u16 = p.1 ∧
        p.2.length < 65536) ∧
      (l.map Prod.fst).Nodup) :
    Message.from_raw (Message.to_raw M) = .ok M := by
  have hmask : M.header.method.to_u16 &&& 0x3EEF = M.header.method.to_u16 := by
    rcases hm with h | ⟨k, hk, hmask, hne⟩
    · rw [h]; decide
    · rw [hk]; simpa [Method.to_u16] using hmask
  have hfix : Method.from_u16 M.header.method.to_u16 = M.header.method := by
    rcases hm with h | ⟨k, hk, hmask2, hne⟩
    · rw [h]; decide
    · rw [hk]; simp [Method.from_u16, Method.to_u16, METHOD_BINDING, hne]
  have hcls : Header.decode_class M.header.message_type = M.header.cls :=
    decode_class_of_known M.header.cls M.header.method hc hmask
  have hmet : Header.decode_method M.header.message_type = M.header.method :=
    decode_method_of_known M.header.cls M.header.method hc hmask hfix
  have hc16 : M.header.cls.to_u16 < 65536 := by
    rcases hc with h | h | h | h <;> rw [h] <;> decide
  have hm16 : M.header.method.to_u16 < 65536 := lt_65536_of_land_3EEF _ hmask
  have hmt16 : M.header.message_type < 65536 := by
    have h2 : M.header.cls.to_u16 ||| M.header.method.to_u16 < 2 ^ 16 :=
      Nat.or_lt_two_pow (by omega) (by omega)
    simpa [Header.message_type] using h2
  have hhdr : Header.from_raw M.header.to_raw = .ok M.header :=
    Header.from_raw_to_raw M.header htid hlen hmt16 hcls hmet
  have hhdrlen : M.header.to_raw.length = 20 := by
    rw [header_to_raw_eq]
    simp [htid]
  rcases hattr with hnone | ⟨l, hsome, hne, hwf, hnodup⟩
  · have hto : Message.to_raw M = M.header.to_raw := by
      simp [Message.to_raw, hnone]
    rw [hto, Message.from_raw_header M.header M.header.to_raw hhdrlen hhdr]
    cases M with
    | mk header attributes =>
      simp only at hnone
      simp [hnone]
  · have hto : Message.to_raw M = M.header.to_raw ++ l.flatMap encodeAttr := by
      simp [Message.to_raw, hsome]
    obtain ⟨p, t, rfl⟩ : ∃ p t, l = p :: t := by
      cases l with
      | nil => exact absurd rfl hne
      | cons p t => exact ⟨p, t, rfl⟩
    have hflatpos : 0 < ((p :: t).flatMap encodeAttr).length := by
      rw [(by simp : (p :: t).flatMap encodeAttr = encodeAttr p ++ t.flatMap encodeAttr),
        encodeAttr_eq]
      simp
    have hdec : Message.decode_attrs ((p :: t).flatMap encodeAttr) = .ok (p :: t) := by
      unfold Message.decode_attrs
      rw [if_neg (by
        rw [List.isEmpty_iff]
        intro hcontra
        rw [hcontra] at hflatpos
        simp at hflatpos)]
      have h2 := decodeAttrsLoop_encode (p :: t) []
        ((p :: t).flatMap encodeAttr).length (le_refl _) hwf
        (by intro q hq r hr; simp at hr) hnodup
      simpa using h2
    rw [hto, Message.from_raw_append M.header (p :: t) M.header.to_raw
      ((p :: t).flatMap encodeAttr) hhdrlen hhdr hflatpos hdec]
    cases M with
    | mk header attributes =>
      simp only at hsome
      simp [hsome]

/-- A concrete well-formed message with one CHANGE-REQUEST attribute, the
shape the client itself sends. -/
def changeRequestMessage : Message :=
  { header := { method := .binding, cls := .request, length := 8,
                transaction_id := List.replicate 12 7 },
    attributes := some [(.changeRequest, Attribute.generate_change_request_value true false)] }

/-- C2 witness: the amended round trip at a concrete Binding/Request with
a single CHANGE-REQUEST attribute. -/
theorem message_from_raw_to_raw_witness :
    Message.from_raw (Message.to_raw changeRequestMessage) = .ok changeRequestMessage :=
  message_from_raw_to_raw changeRequestMessage
    (Or.inl rfl) (Or.inl rfl) (by decide) (by decide)
    (Or.inr ⟨[(.changeRequest, Attribute.generate_change_request_value true false)],
      rfl, by decide, by decide, by decide⟩)

/-- C4 witness: the amended round trip at the concrete input
(SuccessResponse, Unknown(0x0002)). -/
theorem message_type_roundtrip_witness :
    (Class.successResponse = .request ∨ Class.successResponse = .indication ∨
      Class.successResponse = .successResponse ∨ Class.successResponse = .errorResponse) ∧
    (Method.unknown 0x0002 = .binding ∨ ∃ k, Method.unknown 0x0002 = .unknown k ∧
      k &&& 0x3EEF = k ∧ k ≠ 0x0001) ∧
    Header.decode_class (Class.successResponse.to_u16 ||| (Method.unknown 0x0002).to_u16) =
      Class.successResponse ∧
    Header.decode_method (Class.successResponse.to_u16 ||| (Method.unknown 0x0002).to_u16) =
      Method.unknown 0x0002 :=
  ⟨by decide, Or.inr ⟨2, rfl, by decide, by decide⟩,
    message_type_roundtrip Class.successResponse (Method.unknown 0x0002)
      (by decide) (Or.inr ⟨2, rfl, by decide, by decide⟩)⟩

/-! ## C3: attribute padding -/

/-- A Binding/Request with one SOFTWARE attribute of one value byte, whose
correct RFC serialization would need three padding bytes. -/
def softwareMessage : Message :=
  { header := { method := .binding, cls := .request, length := 5,
                transaction_id := List.replicate 12 0 },
    attributes := some [(.software, [0x41])] }

/-- C3: the encoder emits no padding after a one-byte attribute value (the
output is 25 bytes, not a multiple of 4, ending right after the value
byte), and the decoder does not skip on-wire padding: it fails with
ParseError on the correctly padded serialization of the same attribute,
treating the three pad bytes as a truncated attribute header. -/
theorem attribute_padding_missing_on_both_paths :
    Message.to_raw softwareMessage =
      [0x00, 0x01, 0x00, 0x05, 0x21, 0x12, 0xA4, 0x42,
       0, 0, 0, 0, 0, 0, 0, 0, 0, 0, 0, 0,
       0x80, 0x22, 0x00, 0x01, 0x41] ∧
    (Message.to_raw softwareMessage).length % 4 ≠ 0 ∧
    Message.decode_attrs [0x80, 0x22, 0x00, 0x01, 0x41, 0x00, 0x00, 0x00] =
      .error .parseError := by
  decide

/-! ## C5: XOR-MAPPED-ADDRESS decoding -/

/-- The message of the specification vector for C5: all-zero transaction
id, XOR-MAPPED-ADDRESS value bytes 00 01 A1 47 E1 12 A4 43. -/
def xorSpecVectorMessage : Message :=
  { header := { method := .binding, cls := .successResponse, length := 12,
                transaction_id := List.replicate 12 0 },
    attributes := some [(.xorMappedAddress, [0x00, 0x01, 0xA1, 0x47, 0xE1, 0x12, 0xA4, 0x43])] }

/-- The corrected RFC 5769 vector: value bytes 00 01 A1 47 E1 12 A6 43. -/
def xorVectorMessage : Message :=
  { header := { method := .binding, cls := .successResponse, length := 12,
                transaction_id := List.replicate 12 0 },
    attributes := some [(.xorMappedAddress, [0x00, 0x01, 0xA1, 0x47, 0xE1, 0x12, 0xA6, 0x43])] }

/-- C5 counterexample: for the claimed value bytes 00 01 A1 47 E1 12 A4 43
the third address byte decodes as 0xA4 xor 0xA4 = 0, so the result is
192.0.0.1:32853, not the claimed 192.0.2.1:32853 (the claimed xor
arithmetic E112A443 xor 2112A442 = C0000201 is off in the third byte). -/
theorem xor_mapped_address_spec_vector_wrong :
    Attribute.get_xor_mapped_address xorSpecVectorMessage =
      .ok (some ⟨.v4 192 0 0 1, 32853⟩) ∧
    Attribute.get_xor_mapped_address xorSpecVectorMessage ≠
      .ok (some ⟨.v4 192 0 2 1, 32853⟩) := by
  decide

/-- listIdx on a cons cell at index zero. -/
lemma listIdx_cons_zero (a : Nat) (l : List Nat) : listIdx (a :: l) 0 = .ok a := by
  simp [listIdx]

/-- listIdx on a cons cell at a successor index. -/
lemma listIdx_cons_succ (a : Nat) (l : List Nat) (i : Nat) :
    listIdx (a :: l) (i + 1) = listIdx l i := by
  by_cases h : i < l.length <;> simp [listIdx, h, Nat.succ_lt_succ_iff]

/-- listSlice on a cons cell at a successor index. -/
lemma listSlice_cons_succ (a : Nat) (l : List Nat) (i : Nat) :
    listSlice (a :: l) (i + 1) = listSlice l i := by
  by_cases h : i ≤ l.length <;> simp [listSlice, h, Nat.succ_le_succ_iff]

/-- listSlice at index zero. -/
lemma listSlice_zero (l : List Nat) : listSlice l 0 = .ok l := by
  simp [listSlice]

/-- C5 amended: for the corrected vector bytes the concrete result is
192.0.2.1:32853 (see the witness), and in general, for every message
whose XOR-MAPPED-ADDRESS value has family byte 0x01, port bytes q0 q1 and
at least four address bytes a0 a1 a2 a3, the decoded port is
u16be q0 q1 xor 0x2112 (the high 16 bits of the magic cookie) and the
decoded address bytes are a0..a3 xored with the magic cookie bytes. -/
theorem get_xor_mapped_address_ipv4 (msg : Message)
    (r q0 q1 a0 a1 a2 a3 : Nat) (rest : List Nat)
    (hattr : Message.get_raw_attr_value msg .xorMappedAddress =
      some (r :: 0x01 :: q0 :: q1 :: a0 :: a1 :: a2 :: a3 :: rest)) :
    Attribute.get_xor_mapped_address msg =
      .ok (some ⟨.v4 (a0 ^^^ 0x21) (a1 ^^^ 0x12) (a2 ^^^ 0xA4) (a3 ^^^ 0x42),
        u16be q0 q1 ^^^ 0x2112⟩) := by
  unfold Attribute.get_xor_mapped_address
  rw [hattr]
  simp only [listIdx_cons_succ, listIdx_cons_zero, listSlice_cons_succ, listSlice_zero]
  norm_num [FAMILY_IPV4, FAMILY_IPV6, MAGIC_COOKIE, u32bytes, u16be,
    bytes_to_ip_addr, listIdx, List.zip]

/-- C5 witness: the general rule applied to the corrected vector yields
exactly 192.0.2.1:32853. -/
theorem get_xor_mapped_address_ipv4_witness :
    Message.get_raw_attr_value xorVectorMessage .xorMappedAddress =
      some [0x00, 0x01, 0xA1, 0x47, 0xE1, 0x12, 0xA6, 0x43] ∧
    Attribute.get_xor_mapped_address xorVectorMessage =
      .ok (some ⟨.v4 192 0 2 1, 32853⟩) :=
  ⟨by decide,
    (get_xor_mapped_address_ipv4 xorVectorMessage
      0x00 0xA1 0x47 0xE1 0x12 0xA6 0x43 [] (by decide)).trans (by decide)⟩

/-! ## C6: truncation rejection -/

/-- Header::from_raw succeeds on every 20-byte buffer. -/
lemma Header.from_raw_ok_of_20 (hdr : List Nat) (h20 : hdr.length = 20) :
    ∃ h, Header.from_raw hdr = .ok h := by
  unfold Header.from_raw
  rw [if_neg (by rw [h20]; decide)]
  exact ⟨_, rfl⟩

/-- Message::from_raw propagates an attribute-section parse error behind a
20-byte header. -/
lemma Message.from_raw_append_decode_error (hdr rest : List Nat) (e : STUNClientError)
    (hh20 : hdr.length = 20)
    (hpos : 0 < rest.length)
    (hdec : Message.decode_attrs rest = .error e) :
    Message.from_raw (hdr ++ rest) = .error e := by
  obtain ⟨h, hhdr⟩ := Header.from_raw_ok_of_20 hdr hh20
  unfold Message.from_raw
  have hb : HEADER_BYTE_SIZE = 20 := rfl
  have hL : (hdr ++ rest).length = 20 + rest.length := by simp [hh20]
  have htake : (hdr ++ rest).take 20 = hdr := by rw [← hh20]; exact List.take_left _ _
  have hdrop : (hdr ++ rest).drop 20 = rest := by rw [← hh20]; exact List.drop_left _ _
  simp only [hb, hL, htake, hdrop, hhdr]
  rw [if_neg (by omega)]
  rw [if_pos (by omega)]
  simp only [hdec]

/-- The attribute decoder rejects a nonempty buffer shorter than one
attribute header. -/
lemma decode_attrs_short (tail : List Nat) (hpos : 0 < tail.length)
    (hlt : tail.length < 4) : Message.decode_attrs tail = .error .parseError := by
  rcases tail with _ | ⟨a, _ | ⟨b, _ | ⟨c, _ | ⟨d, r⟩⟩⟩⟩
  · simp at hpos
  · rfl
  · rfl
  · rfl
  · exfalso
    simp [List.length_cons] at hlt
    omega

/-- The attribute decoder rejects a declared value length that exceeds the
remaining bytes. -/
lemma decode_attrs_truncated_value (t0 t1 l0 l1 : Nat) (val : List Nat)
    (hvl : val.length < u16be l0 l1) :
    Message.decode_attrs (t0 :: t1 :: l0 :: l1 :: val) = .error .parseError := by
  unfold Message.decode_attrs
  rw [if_neg (by simp)]
  show decodeAttrsLoop (t0 :: t1 :: l0 :: l1 :: val).length [] _ = _
  simp only [List.length_cons, decodeAttrsLoop]
  rw [if_pos hvl]

/-- C6: from_raw returns ParseError on every buffer shorter than 20 bytes;
on every 20-byte header followed by a partial attribute of one to three
bytes; and on every buffer whose attribute header declares a value length
larger than the number of value bytes that follow. -/
theorem from_raw_truncation_rejection :
    (∀ buf : List Nat, buf.length < 20 →
      Message.from_raw buf = .error .parseError) ∧
    (∀ hdr tail : List Nat, hdr.length = 20 → 0 < tail.length → tail.length < 4 →
      Message.from_raw (hdr ++ tail) = .error .parseError) ∧
    (∀ (hdr : List Nat) (t0 t1 l0 l1 : Nat) (val : List Nat), hdr.length = 20 →
      val.length < u16be l0 l1 →
      Message.from_raw (hdr ++ (t0 :: t1 :: l0 :: l1 :: val)) = .error .parseError) := by
  refine ⟨?_, ?_, ?_⟩
  · intro buf h
    unfold Message.from_raw
    rw [if_pos (by simpa [HEADER_BYTE_SIZE] using h)]
  · intro hdr tail h20 hpos hlt
    exact Message.from_raw_append_decode_error hdr tail .parseError h20 hpos
      (decode_attrs_short tail hpos hlt)
  · intro hdr t0 t1 l0 l1 val h20 hvl
    exact Message.from_raw_append_decode_error hdr _ .parseError h20 (by simp)
      (decode_attrs_truncated_value t0 t1 l0 l1 val hvl)

/-- C6 witness: the three rejections at concrete inputs: the empty buffer,
a zero header followed by one stray byte, and a zero header followed by a
SOFTWARE attribute declaring two value bytes but carrying one. -/
theorem from_raw_truncation_rejection_witness :
    Message.from_raw [] = .error .parseError ∧
    Message.from_raw (List.replicate 20 0 ++ [0x41]) = .error .parseError ∧
    Message.from_raw (List.replicate 20 0 ++ (0x80 :: 0x22 :: 0x00 :: 0x02 :: [0x41])) =
      .error .parseError :=
  ⟨from_raw_truncation_rejection.1 [] (by decide),
   from_raw_truncation_rejection.2.1 (List.replicate 20 0) [0x41] (by decide) (by decide)
     (by decide),
   from_raw_truncation_rejection.2.2 (List.replicate 20 0) 0x80 0x22 0x00 0x02 [0x41]
     (by decide) (by decide)⟩

/-! ## C10: accessor partiality -/

/-- A success response carrying a single attribute with the given raw
value. -/
def shortAttrMessage (a : Attribute) (v : List Nat) : Message :=
  { header := { method := .binding, cls := .successResponse, length := 0,
                transaction_id := List.replicate 12 0 },
    attributes := some [(a, v)] }

/-- C10: each address and error-code accessor panics (models as .error ())
on a present attribute whose raw value is shorter than its fixed layout:
a one-byte value for the address accessors (indexing byte 1 is out of
bounds), a seven-byte IPv4 XOR-MAPPED-ADDRESS value whose three address
bytes make bytes_to_ip_addr index out of bounds, and a two-byte ERROR-CODE
value (indexing byte 2 is out of bounds). -/
theorem accessors_panic_on_short_values :
    Attribute.get_xor_mapped_address (shortAttrMessage .xorMappedAddress [0]) = .error () ∧
    Attribute.get_xor_mapped_address
      (shortAttrMessage .xorMappedAddress [0x00, 0x01, 0xA1, 0x47, 0x01, 0x02, 0x03]) =
      .error () ∧
    Attribute.get_mapped_address (shortAttrMessage .mappedAddress [0]) = .error () ∧
    Attribute.get_other_address (shortAttrMessage .otherAddress [0]) = .error () ∧
    Attribute.get_response_origin (shortAttrMessage .responseOrigin [0]) = .error () ∧
    Attribute.get_error_code (shortAttrMessage .errorCode [0, 0]) = .error () := by
  decide

/-! ## C1: transaction removal on exit paths -/

/-- A fixed 12-byte transaction id for the concrete client runs. -/
def tid0 : List Nat := List.replicate 12 0

/-- C1: the timeout, closed-stream and send-failure exits of
binding_request skip the removal of the transaction entry (the early
returns happen before the removal block), so after a run that starts from
an empty table and times out, the table still holds the transaction id;
only the delivered-response exit removes it. -/
theorem binding_request_leaks_entry_on_timeout :
    (Client.binding_request [] tid0 none (.ok ()) .timeout).1 = .error .timeoutError ∧
    (Client.binding_request [] tid0 none (.ok ()) .timeout).2.1 = [tid0] ∧
    (Client.binding_request [] tid0 none (.ok ()) .streamClosed).2.1 = [tid0] ∧
    (Client.binding_request [] tid0 none (.error "connection refused") .timeout).1 =
      .error (.ioError "connection refused") ∧
    (Client.binding_request [] tid0 none (.error "connection refused") .timeout).2.1 =
      [tid0] ∧
    (Client.binding_request [] tid0 none (.ok ())
      (.delivered (.error .parseError))).2.1 = [] := by
  constructor
  · rfl
  · constructor
    · rfl
    · constructor
      · rfl
      · constructor
        · rfl
        · constructor
          · rfl
          · decide

/-! ## C9: insert happens before send -/

/-- C9: in every execution of binding_request, whatever the send and
receive outcomes, the action trace begins with the insertion of the
transaction id into the table, immediately followed by the socket send of
the serialized request: the insert is strictly before the send. -/
theorem binding_request_insert_before_send (table : List (List Nat)) (tid : List Nat)
    (attrs : Option (List (Attribute × List Nat)))
    (sendResult : Except String Unit) (recv : RecvOutcome) :
    ∃ rest, (Client.binding_request table tid attrs sendResult recv).2.2 =
      ClientAction.insertTx tid ::
      ClientAction.sendTo (Message.to_raw (Message.new .binding .request attrs tid)) ::
      rest := by
  cases sendResult <;> cases recv <;> exact ⟨_, rfl⟩

/-! ## C7: NAT filtering discovery -/

/-- C7: with Test 1 delivering a message holding an XOR-MAPPED-ADDRESS,
the filtering procedure sends Test 2 with CHANGE-REQUEST(ip, port) and
returns EndpointIndependent when it succeeds; on a Test 2 timeout it sends
Test 3 with CHANGE-REQUEST(port only), returning AddressDependent on
success and AddressAndPortDependent on timeout; every non-timeout error of
Test 2 or Test 3 is returned unchanged. -/
theorem check_nat_filtering_behavior_spec (sa : SocketAddr)
    (oracle : Nat → Except STUNClientError Message) (t1 : Message) (xma : SocketAddr)
    (h0 : oracle 0 = .ok t1)
    (hx : Attribute.get_xor_mapped_address t1 = .ok (some xma)) :
    (∀ t2, oracle 1 = .ok t2 →
      check_nat_filtering_behavior sa oracle =
        .ok (.ok ⟨some xma, .endpointIndependent⟩,
          [⟨sa, none⟩,
           ⟨sa, some [(.changeRequest, Attribute.generate_change_request_value true true)]⟩])) ∧
    (oracle 1 = .error .timeoutError →
      (∀ t3, oracle 2 = .ok t3 →
        check_nat_filtering_behavior sa oracle =
          .ok (.ok ⟨some xma, .addressDependent⟩,
            [⟨sa, none⟩,
             ⟨sa, some [(.changeRequest, Attribute.generate_change_request_value true true)]⟩,
             ⟨sa, some [(.changeRequest, Attribute.generate_change_request_value false true)]⟩])) ∧
      (oracle 2 = .error .timeoutError →
        check_nat_filtering_behavior sa oracle =
          .ok (.ok ⟨some xma, .addressAndPortDependent⟩,
            [⟨sa, none⟩,
             ⟨sa, some [(.changeRequest, Attribute.generate_change_request_value true true)]⟩,
             ⟨sa, some [(.changeRequest, Attribute.generate_change_request_value false true)]⟩])) ∧
      (∀ e2, oracle 2 = .error e2 → e2 ≠ .timeoutError →
        check_nat_filtering_behavior sa oracle =
          .ok (.error e2,
            [⟨sa, none⟩,
             ⟨sa, some [(.changeRequest, Attribute.generate_change_request_value true true)]⟩,
             ⟨sa, some [(.changeRequest, Attribute.generate_change_request_value false true)]⟩]))) ∧
    (∀ e, oracle 1 = .error e → e ≠ .timeoutError →
      check_nat_filtering_behavior sa oracle =
        .ok (.error e,
          [⟨sa, none⟩,
           ⟨sa, some [(.changeRequest, Attribute.generate_change_request_value true true)]⟩])) := by
  refine ⟨?_, fun h1 => ⟨?_, ?_, ?_⟩, ?_⟩
  · intro t2 h2
    unfold check_nat_filtering_behavior
    simp only [h0, hx, h2]
  · intro t3 h3
    unfold check_nat_filtering_behavior
    simp only [h0, hx, h1, h3]
  · intro h3
    unfold check_nat_filtering_behavior
    simp only [h0, hx, h1, h3]
  · intro e2 h3 hne
    unfold check_nat_filtering_behavior
    simp only [h0, hx, h1, h3]
  · intro e h1 hne
    unfold check_nat_filtering_behavior
    simp only [h0, hx, h1]

/-- A success response with an IPv4 XOR-MAPPED-ADDRESS whose plain decode
is 33.18.164.66:8466 (zero xport and xaddress bytes). -/
def xmaOnlyMessage : Message :=
  { header := { method := .binding, cls := .successResponse, length := 12,
                transaction_id := List.replicate 12 0 },
    attributes := some [(.xorMappedAddress, [0x00, 0x01, 0, 0, 0, 0, 0, 0])] }

/-- An oracle whose every binding request succeeds with xmaOnlyMessage. -/
def filteringOracleEI : Nat → Except STUNClientError Message :=
  fun _ => .ok xmaOnlyMessage

/-- A concrete server endpoint for the discovery runs. -/
def serverAddr : SocketAddr := ⟨.v4 198 51 100 1, 3478⟩

/-- C7 witness: with every request answered, the filtering procedure
classifies EndpointIndependent after exactly the two requests of Tests 1
and 2, the second carrying CHANGE-REQUEST with both flags. -/
theorem check_nat_filtering_behavior_spec_witness :
    check_nat_filtering_behavior serverAddr filteringOracleEI =
      .ok (.ok ⟨some ⟨.v4 33 18 164 66, 8466⟩, .endpointIndependent⟩,
        [⟨serverAddr, none⟩,
         ⟨serverAddr,
          some [(.changeRequest, Attribute.generate_change_request_value true true)]⟩]) :=
  (check_nat_filtering_behavior_spec serverAddr filteringOracleEI xmaOnlyMessage
    ⟨.v4 33 18 164 66, 8466⟩ (by decide) (by decide)).1 xmaOnlyMessage (by decide)

/-! ## C8: NAT mapping discovery -/

/-- A success response carrying an OTHER-ADDRESS of 203.0.113.2:3479 and
an IPv6 XOR-MAPPED-ADDRESS (family byte 0x02, all-zero xport and
xaddress). -/
def v6MappedMessage : Message :=
  { header := { method := .binding, cls := .successResponse, length := 32,
                transaction_id := List.replicate 12 0 },
    attributes := some
      [(.otherAddress, [0x00, 0x01, 0x0D, 0x97, 203, 0, 113, 2]),
       (.xorMappedAddress, [0x00, 0x02, 0x00, 0x00] ++ List.replicate 16 0)] }

/-- An oracle whose every binding request succeeds with v6MappedMessage. -/
def mappingOracleV6 : Nat → Except STUNClientError Message :=
  fun _ => .ok v6MappedMessage

/-- C8 counterexample: Test 1 succeeds with OTHER-ADDRESS and an IPv6
XOR-MAPPED-ADDRESS matching no local interface address (the local list is
empty), and the oracle would answer Test 2 with the identical mapped
address, yet the procedure returns ParseError after the single Test 1
request instead of EndpointIndependent: for an IPv6 mapped address that
matches no local interface the code errors out before Test 2. -/
theorem check_nat_mapping_behavior_v6_quirk :
    Attribute.get_other_address v6MappedMessage = .ok (some ⟨.v4 203 0 113 2, 3479⟩) ∧
    Attribute.get_xor_mapped_address v6MappedMessage =
      .ok (some ⟨.v6 [0x21, 0x12, 0xA4, 0x42, 0, 0, 0, 0, 0, 0, 0, 0, 0, 0, 0, 0],
        0x2112⟩) ∧
    check_nat_mapping_behavior [] serverAddr mappingOracleV6 =
      .ok (.error .parseError, [⟨serverAddr, none⟩]) ∧
    check_nat_mapping_behavior [] serverAddr mappingOracleV6 ≠
      .ok (.ok { test1_xor_mapped_addr :=
                   some ⟨.v6 [0x21, 0x12, 0xA4, 0x42, 0, 0, 0, 0, 0, 0, 0, 0, 0, 0, 0, 0],
                     0x2112⟩,
                 test2_xor_mapped_addr :=
                   some ⟨.v6 [0x21, 0x12, 0xA4, 0x42, 0, 0, 0, 0, 0, 0, 0, 0, 0, 0, 0, 0],
                     0x2112⟩,
                 test3_xor_mapped_addr := none,
                 mapping_type := .endpointIndependent },
        [⟨serverAddr, none⟩, ⟨serverAddr, none⟩]) := by
  decide

/-- C8 amended: restricted to a Test 1 reflexive address of the IPv4
family, the mapping procedure behaves as claimed: a Test 1 response
missing OTHER-ADDRESS or XOR-MAPPED-ADDRESS fails with NotSupportedError;
when Test 2 reports the same mapped address the result is
EndpointIndependent after exactly two requests (Test 3 is never issued);
otherwise Test 3 goes to the primary server ip with the OTHER-ADDRESS
port, yielding AddressDependent when its mapped address equals that of
Test 2 and AddressAndPortDependent otherwise; a Test 2 or Test 3 response
missing XOR-MAPPED-ADDRESS fails with NotSupportedError. -/
theorem check_nat_mapping_behavior_spec :
    (∀ (lips : List IpAddr) (sa : SocketAddr) (oracle : Nat → Except STUNClientError Message)
       (t1 : Message), oracle 0 = .ok t1 →
      Attribute.get_other_address t1 = .ok none →
      check_nat_mapping_behavior lips sa oracle =
        .ok (.error (.notSupportedError "OTHER-ADDRESS"), [⟨sa, none⟩])) ∧
    (∀ (lips : List IpAddr) (sa : SocketAddr) (oracle : Nat → Except STUNClientError Message)
       (t1 : Message) (oa : SocketAddr), oracle 0 = .ok t1 →
      Attribute.get_other_address t1 = .ok (some oa) →
      Attribute.get_xor_mapped_address t1 = .ok none →
      check_nat_mapping_behavior lips sa oracle =
        .ok (.error (.notSupportedError "XOR-MAPPED-ADDRESS"), [⟨sa, none⟩])) ∧
    (∀ (lips : List IpAddr) (sa : SocketAddr) (oracle : Nat → Except STUNClientError Message)
       (t1 : Message) (oa a1 : SocketAddr) (av bv cv dv : Nat) (t2 : Message),
      oracle 0 = .ok t1 →
      Attribute.get_other_address t1 = .ok (some oa) →
      Attribute.get_xor_mapped_address t1 = .ok (some a1) →
      a1.ip = .v4 av bv cv dv →
      (lips.any fun lip => lip = IpAddr.v4 av bv cv dv) = false →
      oracle 1 = .ok t2 →
      Attribute.get_xor_mapped_address t2 = .ok (some a1) →
      check_nat_mapping_behavior lips sa oracle =
        .ok (.ok { test1_xor_mapped_addr := some a1, test2_xor_mapped_addr := some a1,
                   test3_xor_mapped_addr := none, mapping_type := .endpointIndependent },
          [⟨sa, none⟩, ⟨oa, none⟩])) ∧
    (∀ (lips : List IpAddr) (sa : SocketAddr) (oracle : Nat → Except STUNClientError Message)
       (t1 : Message) (oa a1 : SocketAddr) (av bv cv dv : Nat) (t2 : Message),
      oracle 0 = .ok t1 →
      Attribute.get_other_address t1 = .ok (some oa) →
      Attribute.get_xor_mapped_address t1 = .ok (some a1) →
      a1.ip = .v4 av bv cv dv →
      (lips.any fun lip => lip = IpAddr.v4 av bv cv dv) = false →
      oracle 1 = .ok t2 →
      Attribute.get_xor_mapped_address t2 = .ok none →
      check_nat_mapping_behavior lips sa oracle =
        .ok (.error (.notSupportedError "XOR-MAPPED-ADDRESS"), [⟨sa, none⟩, ⟨oa, none⟩])) ∧
    (∀ (lips : List IpAddr) (sa : SocketAddr) (oracle : Nat → Except STUNClientError Message)
       (t1 : Message) (oa a1 : SocketAddr) (av bv cv dv : Nat) (t2 : Message)
       (a2 : SocketAddr) (t3 : Message) (a3 : SocketAddr),
      oracle 0 = .ok t1 →
      Attribute.get_other_address t1 = .ok (some oa) →
      Attribute.get_xor_mapped_address t1 = .ok (some a1) →
      a1.ip = .v4 av bv cv dv →
      (lips.any fun lip => lip = IpAddr.v4 av bv cv dv) = false →
      oracle 1 = .ok t2 →
      Attribute.get_xor_mapped_address t2 = .ok (some a2) →
      a1 ≠ a2 →
      oracle 2 = .ok t3 →
      Attribute.get_xor_mapped_address t3 = .ok (some a3) →
      check_nat_mapping_behavior lips sa oracle =
        .ok ((if a2 = a3 then
                .ok { test1_xor_mapped_addr := some a1, test2_xor_mapped_addr := some a2,
                      test3_xor_mapped_addr := some a3, mapping_type := .addressDependent }
              else
                .ok { test1_xor_mapped_addr := some a1, test2_xor_mapped_addr := some a2,
                      test3_xor_mapped_addr := some a3,
                      mapping_type := .addressAndPortDependent }),
          [⟨sa, none⟩, ⟨oa, none⟩, ⟨⟨sa.ip, oa.port⟩, none⟩])) := by
  refine ⟨?_, ?_, ?_, ?_, ?_⟩
  · intro lips sa oracle t1 h0 hoa
    unfold check_nat_mapping_behavior
    simp only [h0, hoa]
  · intro lips sa oracle t1 oa h0 hoa hx1
    unfold check_nat_mapping_behavior
    simp only [h0, hoa, hx1]
  · intro lips sa oracle t1 oa a1 av bv cv dv t2 h0 hoa hx1 hip hnl h1 hx2
    unfold check_nat_mapping_behavior mappingTests23
    simp only [h0, hoa, hx1, hip, hnl, h1, hx2]
    simp
  · intro lips sa oracle t1 oa a1 av bv cv dv t2 h0 hoa hx1 hip hnl h1 hx2
    unfold check_nat_mapping_behavior mappingTests23
    simp only [h0, hoa, hx1, hip, hnl, h1, hx2]
    simp
  · intro lips sa oracle t1 oa a1 av bv cv dv t2 a2 t3 a3 h0 hoa hx1 hip hnl h1 hx2
      hne12 h2 hx3
    unfold check_nat_mapping_behavior mappingTests23
    simp only [h0, hoa, hx1, hip, hnl, h1, hx2, h2, hx3]
    simp [hne12]
    by_cases h23 : a2 = a3
    · simp [h23]
    · simp [h23]

/-- A success response with OTHER-ADDRESS 203.0.113.2:3479 and an IPv4
XOR-MAPPED-ADDRESS decoding to 33.18.164.66:8466. -/
def mappingMessageEI : Message :=
  { header := { method := .binding, cls := .successResponse, length := 24,
                transaction_id := List.replicate 12 0 },
    attributes := some
      [(.otherAddress, [0x00, 0x01, 0x0D, 0x97, 203, 0, 113, 2]),
       (.xorMappedAddress, [0x00, 0x01, 0x00, 0x00, 0x00, 0x00, 0x00, 0x00])] }

/-- An oracle whose every binding request succeeds with mappingMessageEI. -/
def mappingOracleEI : Nat → Except STUNClientError Message :=
  fun _ => .ok mappingMessageEI

/-- C8 witness: with every request answered by the same IPv4 reflexive
address and no local interface matching it, the mapping procedure
classifies EndpointIndependent after exactly the two requests of Tests 1
and 2. -/
theorem check_nat_mapping_behavior_spec_witness :
    check_nat_mapping_behavior [] serverAddr mappingOracleEI =
      .ok (.ok { test1_xor_mapped_addr := some ⟨.v4 33 18 164 66, 8466⟩,
                 test2_xor_mapped_addr := some ⟨.v4 33 18 164 66, 8466⟩,
                 test3_xor_mapped_addr := none,
                 mapping_type := .endpointIndependent },
        [⟨serverAddr, none⟩, ⟨⟨.v4 203 0 113 2, 3479⟩, none⟩]) :=
  check_nat_mapping_behavior_spec.2.2.1 [] serverAddr mappingOracleEI
    mappingMessageEI ⟨.v4 203 0 113 2, 3479⟩ ⟨.v4 33 18 164 66, 8466⟩
    33 18 164 66 mappingMessageEI
    (by decide) (by decide) (by decide) (by decide) (by decide) (by decide) (by decide)

end StunClient
